import Mathlib

/-!
Shallow embedding of `src/main.py` of the textract-bedrock-document-insights
repository: a Streamlit pipeline that uploads a document to S3, extracts text
with Textract, and analyzes it with a Bedrock model.

External services (S3, Textract, Bedrock, PyPDF2, the wall clock) are modelled
as oracle values carried by environment records; the Python control flow that
consumes them is translated function by function.
-/

namespace DocInsights

/-- A Textract block as consumed by `process_document` (main.py line 119):
only the optional `"Text"` field is read, so a block is modelled by that
field alone (`none` when the key is absent). -/
structure Block where
  text : Option String
deriving DecidableEq

/-- Embeds main.py lines 118-120:
`"\n".join([block["Text"] for block in output["Blocks"] if "Text" in block])`.
Python's `str.join` on the filtered comprehension is `String.intercalate`
over `List.filterMap`. -/
def extractText (blocks : List Block) : String :=
  String.intercalate "\n" (blocks.filterMap Block.text)

/-- Modelled from the spec: the "newline-join" of a list of fragments in
order — fragments separated by a single newline, empty list giving the
empty string. Used to compare `extractText` against the spec's wording. -/
def newlineJoin : List String → String
  | [] => ""
  | [x] => x
  | x :: y :: ys => x ++ "\n" ++ newlineJoin (y :: ys)

/-- The `inferenceConfig` object of the Bedrock request (main.py lines 53-58).
Python floats appear only as literal constants passed through, so they are
modelled as rationals. -/
structure InfParams where
  max_new_tokens : Nat
  top_p : ℚ
  top_k : Nat
  temperature : ℚ
deriving DecidableEq

/-- One element of a message's `content` array; the `"text"` key may be
absent in a service response, hence `Option`. -/
structure ContentItem where
  text : Option String
deriving DecidableEq

/-- One conversation turn of the request/response schema. -/
structure Message where
  role : String
  content : List ContentItem
deriving DecidableEq

/-- One element of the `system` array of the request (main.py lines 36-40). -/
structure SystemEntry where
  text : String
deriving DecidableEq

/-- The request body built by `invoke_bedrock_model` (main.py lines 60-65). -/
structure RequestBody where
  schemaVersion : String
  messages : List Message
  system : List SystemEntry
  inferenceConfig : InfParams
deriving DecidableEq

/-- Embeds main.py lines 36-65: the request constructed by
`invoke_bedrock_model` from its `prompt` and `extracted_text` arguments.
The sampling parameters are the hard-coded dictionary of lines 53-58:
`max_new_tokens 1000, top_p 0.9, top_k 20, temperature 0.7`.
The user text is the f-string `f"{prompt}:\n\n{extracted_text}\n\n"`. -/
def buildRequestBody (prompt extracted_text : String) : RequestBody :=
  { schemaVersion := "messages-v1"
    messages := [{ role := "user"
                   content := [{ text := some (prompt ++ ":\n\n" ++ extracted_text ++ "\n\n") }] }]
    system := [{ text := "You are a helpful assistant that analyzes text from scanned documents" }]
    inferenceConfig := { max_new_tokens := 1000, top_p := 9/10, top_k := 20, temperature := 7/10 } }

/-- The slider values read in `main` (main.py lines 155-184):
`max_new_tokens`, `temperature`, `top_p`, `top_k`. -/
structure Sliders where
  max_new_tokens : Nat
  temperature : ℚ
  top_p : ℚ
  top_k : Nat
deriving DecidableEq

/-- Embeds the request that reaches Bedrock for given slider settings:
`main` (line 254 → 126) calls `invoke_bedrock_model(bedrock_client,
custom_prompt, extracted_text)` and passes none of the slider variables,
so the built request is `buildRequestBody` applied to the two strings only. -/
def mainRequestBody (_sliders : Sliders) (prompt extracted_text : String) : RequestBody :=
  buildRequestBody prompt extracted_text

/-- The nested `message` object expected inside `output` in a Bedrock
response; `content` may be absent. -/
structure MessageBody where
  content : Option (List ContentItem)
deriving DecidableEq

/-- The `output` object of a Bedrock response; `message` may be absent
(in which case the Python subscript raises, main.py line 78). -/
structure OutputBody where
  message : Option MessageBody
deriving DecidableEq

/-- A parsed Bedrock response body; `output` may be absent. -/
structure ResponseBody where
  output : Option OutputBody
deriving DecidableEq

/-- Embeds main.py lines 77-81, the response parsing inside the `try`:
missing `"output"` or missing/empty `"content"` returns `""` normally,
while the subscripts `["message"]` (line 78) and `[0]["text"]` (line 80)
raise `KeyError` (modelled as `Except.error`) when the key is absent. -/
def extractAnalysis (rb : ResponseBody) : Except String String :=
  match rb.output with
  | none => .ok ""
  | some ob =>
    match ob.message with
    | none => .error "KeyError: message"
    | some m =>
      match m.content with
      | none => .ok ""
      | some [] => .ok ""
      | some (c :: _) =>
        match c.text with
        | none => .error "KeyError: text"
        | some t => .ok t

/-- Embeds `invoke_bedrock_model` (main.py lines 35-85). The oracle
`outcome` is the result of the `invoke_model` network call plus body read:
`Except.error e` when the service call raises, `Except.ok rb` when it
returns a parsed body `rb`. Returns the analysis string together with the
list of `st.error` messages shown; every exception (service or parsing) is
caught by the `except` of line 83 and converted to `("", [message])`. -/
def invoke_bedrock_model (outcome : Except String ResponseBody)
    (prompt extracted_text : String) : String × List String :=
  let _request := buildRequestBody prompt extracted_text
  match outcome with
  | .error e => ("", ["Error invoking model: " ++ e])
  | .ok rb =>
    match extractAnalysis rb with
    | .error e => ("", ["Error invoking model: " ++ e])
    | .ok t => (t, [])

/-- Oracle environment for one run of `process_document`: the outcome of
the `detect_document_text` call (raises or returns a block list), the
outcome of the Bedrock call, and the wall-clock durations measured around
the two calls (main.py lines 115-127). -/
structure Env where
  textract : Except String (List Block)
  bedrock : Except String ResponseBody
  textractDuration : ℚ
  bedrockDuration : ℚ

/-- The dictionary returned by `process_document` (main.py lines 129-143):
exactly the four keys `extracted_text`, `analysis_result`,
`textract_time`, `bedrock_time`. -/
structure ProcResult where
  extracted_text : String
  analysis_result : String
  textract_time : ℚ
  bedrock_time : ℚ
deriving DecidableEq

/-- Observable trace of one `process_document` run: how many Textract and
Bedrock network calls were issued, and the `st.error` messages shown. -/
structure ProcTrace where
  textractCalls : Nat
  bedrockCalls : Nat
  errors : List String
deriving DecidableEq

/-- Embeds `process_document` (main.py lines 87-143). The whole body is
wrapped in one `try`: if the Textract call raises, the `except` of line
136 reports the error and returns the all-empty dictionary with zero
timings — the Bedrock stage is never reached. Otherwise the extracted
text is computed and `invoke_bedrock_model` is called (which catches its
own exceptions, so the outer `except` is not triggered by Bedrock). -/
def process_document (env : Env) (custom_prompt : String) : ProcResult × ProcTrace :=
  match env.textract with
  | .error e =>
    ({ extracted_text := "", analysis_result := "", textract_time := 0, bedrock_time := 0 },
     { textractCalls := 1, bedrockCalls := 0, errors := ["Error processing document: " ++ e] })
  | .ok blocks =>
    let extracted := extractText blocks
    let ar := invoke_bedrock_model env.bedrock custom_prompt extracted
    ({ extracted_text := extracted, analysis_result := ar.1,
       textract_time := env.textractDuration, bedrock_time := env.bedrockDuration },
     { textractCalls := 1, bedrockCalls := 1, errors := ar.2 })

/-- Embeds `upload_to_s3` (main.py lines 25-33): the oracle is the outcome
of `upload_fileobj`; success returns `True`, any exception is caught,
reported via `st.error`, and returns `False`. Result: the boolean plus the
error messages shown. -/
def upload_to_s3 (outcome : Except String Unit) : Bool × List String :=
  match outcome with
  | .ok _ => (true, [])
  | .error e => (false, ["Error uploading to S3: " ++ e])

/-- A wall-clock instant as read by `datetime.now()` (main.py line 247).
Python's `datetime` guarantees `1 ≤ year ≤ 9999` and in-range calendar
fields; the formatting below is faithful on that range. -/
structure Timestamp where
  year : Nat
  month : Nat
  day : Nat
  hour : Nat
  minute : Nat
  second : Nat

/-- Two-digit zero-padded decimal rendering, as produced by the strftime
directives `%m %d %H %M %S` for in-range field values (0-99). -/
def pad2 (n : Nat) : String :=
  String.mk [Nat.digitChar (n / 10 % 10), Nat.digitChar (n % 10)]

/-- Four-digit zero-padded decimal rendering, as produced by the strftime
directive `%Y` for Python datetime years (1-9999). -/
def pad4 (n : Nat) : String :=
  String.mk [Nat.digitChar (n / 1000 % 10), Nat.digitChar (n / 100 % 10),
             Nat.digitChar (n / 10 % 10), Nat.digitChar (n % 10)]

/-- Embeds `datetime.now().strftime('%Y%m%d_%H%M%S')` (main.py line 247). -/
def strftimeKey (t : Timestamp) : String :=
  pad4 t.year ++ pad2 t.month ++ pad2 t.day ++ "_" ++
    pad2 t.hour ++ pad2 t.minute ++ pad2 t.second

/-- Embeds `uploaded_file.name.split('.')[-1]` (main.py line 246): Python
`str.split` on a separator always returns a non-empty list, and `[-1]` is
its last element. -/
def fileExtension (name : String) : String :=
  (name.splitOn ".").getLastD ""

/-- Embeds the key construction of main.py line 247:
`f"uploads/{datetime.now().strftime('%Y%m%d_%H%M%S')}.{file_extension}"`. -/
def makeS3Key (name : String) (t : Timestamp) : String :=
  "uploads/" ++ strftimeKey t ++ "." ++ fileExtension name

/-- Checks the spec's key-timestamp pattern: a 15-character string whose
first 8 and last 6 characters are decimal digits, with `'_'` at index 8. -/
def timestampShape (s : String) : Bool :=
  (s.toList.length == 15) && (s.toList.take 8).all Char.isDigit &&
    (s.toList.get? 8 == some '_') && (s.toList.drop 9).all Char.isDigit

/-- The user-selected file as seen by `main`: its original filename and
its declared MIME type (main.py lines 203-204). -/
structure UploadedFile where
  name : String
  fileType : String
deriving DecidableEq

/-- Outcome of the PDF preview `try` block (main.py lines 206-232):
either every I/O step succeeded and `len(pdf_reader.pages)` returned `n`,
or some step (temp file, `PdfReader`, page access, text extraction)
raised with message `e`. -/
inductive PdfOpen
  | pages (n : Nat)
  | err (e : String)
deriving DecidableEq

/-- The error message of main.py line 218. -/
def multiPageError : String :=
  "Multi-page documents are not supported for this demonstration. Please upload a single-page document."

/-- Embeds the preview/validation section of `main` (main.py lines
203-240): returns the value of `uploaded_file` after the section, plus
the `st.error` messages shown. For a PDF: more than one page clears the
selection with the multi-page error (lines 217-219); zero pages makes
`pdf_reader.pages[0]` (line 223) raise `IndexError`, caught at line 234,
which also clears the selection; any other exception likewise clears it
(line 236). Non-PDF files are kept unconditionally. -/
def previewSelection (uploadedFile : Option UploadedFile) (pdfOpen : PdfOpen) :
    Option UploadedFile × List String :=
  match uploadedFile with
  | none => (none, [])
  | some f =>
    if f.fileType = "application/pdf" then
      match pdfOpen with
      | .err e => (none, ["Error processing PDF: " ++ e])
      | .pages n =>
        if n > 1 then (none, [multiPageError])
        else if n = 0 then (none, ["Error processing PDF: list index out of range"])
        else (some f, [])
    else (some f, [])

/-- Oracle environment for one rendering pass of `main`: the selected
file, the PDF-open outcome, whether the process button was pressed, the
S3 upload outcome, the `process_document` oracle, and the clock value
read at main.py line 247. -/
structure MainEnv where
  uploadedFile : Option UploadedFile
  pdfOpen : PdfOpen
  buttonPressed : Bool
  upload : Except String Unit
  env : Env
  now : Timestamp

/-- Observable trace of one rendering pass of `main`: the number of S3
upload, Textract, and Bedrock network calls, the `st.error` messages
shown, the generated S3 key (if any), and the result dictionary (if
`process_document` ran). -/
structure MainTrace where
  s3UploadCalls : Nat
  textractCalls : Nat
  bedrockCalls : Nat
  errors : List String
  s3Key : Option String
  result : Option ProcResult
deriving DecidableEq

/-- Embeds the processing section of `main` (main.py lines 242-283) after
the preview section fixed the selection: if a file is still selected and
the button is pressed, the key is generated and `upload_to_s3` is called;
on success `process_document` runs, otherwise `"Failed to upload file"`
is shown (line 283) and nothing else is invoked. With no selection or no
button press, no network call is made. -/
def runMain (m : MainEnv) (custom_prompt : String) : MainTrace :=
  let pv := previewSelection m.uploadedFile m.pdfOpen
  match pv.1, m.buttonPressed with
  | some f, true =>
    let key := makeS3Key f.name m.now
    let up := upload_to_s3 m.upload
    if up.1 then
      let pr := process_document m.env custom_prompt
      { s3UploadCalls := 1, textractCalls := pr.2.textractCalls,
        bedrockCalls := pr.2.bedrockCalls,
        errors := pv.2 ++ up.2 ++ pr.2.errors, s3Key := some key, result := some pr.1 }
    else
      { s3UploadCalls := 1, textractCalls := 0, bedrockCalls := 0,
        errors := pv.2 ++ up.2 ++ ["Failed to upload file"], s3Key := some key, result := none }
  | _, _ =>
    { s3UploadCalls := 0, textractCalls := 0, bedrockCalls := 0,
      errors := pv.2, s3Key := none, result := none }

/-- Tail of a separated join: the separator before each remaining fragment. -/
def joinRest (s : String) : List String → String
  | [] => ""
  | a :: as => s ++ a ++ joinRest s as

lemma intercalate_go_eq (s : String) : ∀ (l : List String) (acc : String),
    String.intercalate.go acc s l = acc ++ joinRest s l := by
  intro l
  induction l with
  | nil => intro acc; simp [String.intercalate.go, joinRest, String.append_empty]
  | cons a as ih =>
    intro acc
    rw [String.intercalate.go, joinRest, ih]
    simp [String.append_assoc]

lemma intercalate_eq_newlineJoin (l : List String) :
    String.intercalate "\n" l = newlineJoin l := by
  cases l with
  | nil => rfl
  | cons a as =>
    rw [String.intercalate, intercalate_go_eq]
    induction as generalizing a with
    | nil => simp [joinRest, newlineJoin, String.append_empty]
    | cons b bs ih =>
      rw [joinRest, newlineJoin, ← ih b]
      simp [String.append_assoc]

lemma digitChar_isDigit {d : Nat} (h : d < 10) : (Nat.digitChar d).isDigit = true := by
  interval_cases d <;> decide

lemma digitChar_mod10_isDigit (n : Nat) : (Nat.digitChar (n % 10)).isDigit = true :=
  digitChar_isDigit (Nat.mod_lt _ (by decide))

/-- C3: for every OCR response of N blocks of which exactly K carry a text
field, the extracted text is the newline-join of exactly those K fragments
in response order (the text-bearing fragments in order are
`blocks.filterMap Block.text`, K ≤ N of them), and when no block carries a
text field the result is the empty string, not an error. -/
theorem extractText_newline_join (blocks : List Block) :
    extractText blocks = newlineJoin (blocks.filterMap Block.text) ∧
    (blocks.filterMap Block.text).length ≤ blocks.length ∧
    (blocks.filterMap Block.text = [] → extractText blocks = "") := by
  refine ⟨intercalate_eq_newlineJoin _, List.length_filterMap_le _ _, ?_⟩
  intro h
  rw [extractText, h]
  rfl

/-- Witness for C3 at a concrete response: two blocks with a text field and
one without join to the two fragments, and an all-empty response yields "". -/
theorem extractText_newline_join_witness :
    extractText [⟨some "alpha"⟩, ⟨none⟩, ⟨some "beta"⟩] =
      newlineJoin ["alpha", "beta"] ∧
    extractText [⟨none⟩, ⟨none⟩] = "" := by
  refine ⟨?_, (extractText_newline_join [⟨none⟩, ⟨none⟩]).2.2 (by decide)⟩
  have h := (extractText_newline_join [⟨some "alpha"⟩, ⟨none⟩, ⟨some "beta"⟩]).1
  simpa using h

/-- C4: for every inference-service response missing the expected
output/message/content structure — no `output` key, no `content` key, or an
empty `content` array — the analysis result returned by
`invoke_bedrock_model` is the empty string; the function is total, so no
exception escapes the client. -/
theorem invoke_bedrock_model_malformed_empty (rb : ResponseBody)
    (prompt extracted_text : String)
    (h : rb.output = none ∨ ∃ ob m, rb.output = some ob ∧ ob.message = some m ∧
      (m.content = none ∨ m.content = some [])) :
    (invoke_bedrock_model (Except.ok rb) prompt extracted_text).1 = "" := by
  rcases h with h | ⟨ob, m, hob, hm, hc⟩
  · simp [invoke_bedrock_model, extractAnalysis, h]
  · rcases hc with hc | hc <;> simp [invoke_bedrock_model, extractAnalysis, hob, hm, hc]

/-- Witness for C4: a response with no `output` key yields the empty
analysis result. -/
theorem invoke_bedrock_model_malformed_empty_witness :
    (invoke_bedrock_model (Except.ok ⟨none⟩) "summarize" "doc text").1 = "" :=
  invoke_bedrock_model_malformed_empty ⟨none⟩ "summarize" "doc text" (Or.inl rfl)

/-- C7: for every filename and clock value, the generated storage key is
`"uploads/" ++ ts ++ "." ++ ext` where `ext` is the extension taken from
the original filename and `ts` is the strftime timestamp: 15 characters,
digits at positions 0-7 and 9-14, underscore at position 8 (i.e. a
14-digit second-granularity timestamp with the underscore separator). -/
theorem makeS3Key_matches_pattern (name : String) (t : Timestamp) :
    ∃ ts, makeS3Key name t = "uploads/" ++ ts ++ "." ++ fileExtension name ∧
      timestampShape ts = true := by
  refine ⟨strftimeKey t, rfl, ?_⟩
  show timestampShape (String.mk [Nat.digitChar (t.year / 1000 % 10),
    Nat.digitChar (t.year / 100 % 10), Nat.digitChar (t.year / 10 % 10),
    Nat.digitChar (t.year % 10), Nat.digitChar (t.month / 10 % 10),
    Nat.digitChar (t.month % 10), Nat.digitChar (t.day / 10 % 10),
    Nat.digitChar (t.day % 10), '_', Nat.digitChar (t.hour / 10 % 10),
    Nat.digitChar (t.hour % 10), Nat.digitChar (t.minute / 10 % 10),
    Nat.digitChar (t.minute % 10), Nat.digitChar (t.second / 10 % 10),
    Nat.digitChar (t.second % 10)]) = true
  simp [timestampShape, digitChar_mod10_isDigit]

/-- C8: the text-extraction stage is deterministic: two runs of
`process_document` whose Textract call returns the same response produce
identical extracted text, whatever the prompts, measured durations, and
Bedrock outcomes of the two runs. -/
theorem extraction_deterministic (e1 e2 : Env) (p1 p2 : String)
    (h : e1.textract = e2.textract) :
    (process_document e1 p1).1.extracted_text =
      (process_document e2 p2).1.extracted_text := by
  cases he : e1.textract with
  | error e => simp [process_document, he, h ▸ he]
  | ok blocks => simp [process_document, he, h ▸ he]

/-- Witness for C8: two environments sharing the Textract response but
differing in durations, Bedrock outcome, and prompt extract the same text. -/
theorem extraction_deterministic_witness :
    (process_document ⟨Except.ok [⟨some "alpha"⟩], Except.ok ⟨none⟩, 1, 2⟩
        "first prompt").1.extracted_text =
      (process_document ⟨Except.ok [⟨some "alpha"⟩], Except.error "down", 5, 6⟩
        "second prompt").1.extracted_text :=
  extraction_deterministic _ _ _ _ rfl

/-- C9: `process_document` returns on every path a record with exactly the
four fields `extracted_text`, `analysis_result`, `textract_time`,
`bedrock_time` (in Lean, the type `ProcResult`); when the measured
durations are non-negative both returned timings are non-negative on every
path, and on the exception path both text values are empty and both
timings are 0. -/
theorem process_document_shape_invariant (env : Env) (prompt : String)
    (h1 : 0 ≤ env.textractDuration) (h2 : 0 ≤ env.bedrockDuration) :
    0 ≤ (process_document env prompt).1.textract_time ∧
    0 ≤ (process_document env prompt).1.bedrock_time ∧
    (∀ e, env.textract = Except.error e →
      (process_document env prompt).1 =
        { extracted_text := "", analysis_result := "",
          textract_time := 0, bedrock_time := 0 }) := by
  cases he : env.textract with
  | error e => simp [process_document, he]
  | ok blocks => simp [process_document, he, h1, h2]

/-- Witness for C9 at a concrete failing environment with zero durations. -/
theorem process_document_shape_invariant_witness :
    0 ≤ (process_document ⟨Except.error "boom", Except.ok ⟨none⟩, 0, 0⟩
        "prompt").1.textract_time ∧
    (process_document ⟨Except.error "boom", Except.ok ⟨none⟩, 0, 0⟩ "prompt").1 =
      { extracted_text := "", analysis_result := "",
        textract_time := 0, bedrock_time := 0 } := by
  have h := process_document_shape_invariant
    ⟨Except.error "boom", Except.ok ⟨none⟩, 0, 0⟩ "prompt" (le_refl 0) (le_refl 0)
  exact ⟨h.1, h.2.2 "boom" rfl⟩

/-- C1: the request that reaches Bedrock does NOT carry the caller's
slider values. At slider settings different from the defaults
(max tokens 500, temperature 0.2, top-p 0.5, top-k 50) the constructed
request still carries the hard-coded sampling configuration
`max_new_tokens 1000, top_p 0.9, top_k 20, temperature 0.7` of main.py
lines 53-58: `main` never passes the slider variables to
`invoke_bedrock_model`. -/
theorem mainRequestBody_ignores_sliders :
    (mainRequestBody ⟨500, 1/5, 1/2, 50⟩ "List the compounds"
        "doc text").inferenceConfig =
      { max_new_tokens := 1000, top_p := 9/10, top_k := 20, temperature := 7/10 } ∧
    (mainRequestBody ⟨500, 1/5, 1/2, 50⟩ "List the compounds"
        "doc text").inferenceConfig ≠
      { max_new_tokens := 500, top_p := 1/2, top_k := 50, temperature := 1/5 } := by
  constructor
  · rfl
  · decide

/-- C2 counterexample: when the Textract call raises, `process_document`
returns from its `except` clause without ever invoking the Bedrock model
— the trace records zero Bedrock calls — refuting the claim that
processing continues to the inference stage with empty text. -/
theorem process_document_error_skips_inference_cex :
    (process_document
        ⟨Except.error "Textract unavailable",
         Except.ok ⟨some ⟨some ⟨some [⟨some "ANALYSIS"⟩]⟩⟩⟩, 1, 1⟩
        "summarize").2.bedrockCalls = 0 ∧
    (process_document
        ⟨Except.error "Textract unavailable",
         Except.ok ⟨some ⟨some ⟨some [⟨some "ANALYSIS"⟩]⟩⟩⟩, 1, 1⟩
        "summarize").1.analysis_result = "" :=
  ⟨rfl, rfl⟩

/-- C2 (amended): for every OCR-service exception raised during text
extraction, the error is reported and `process_document` returns the
all-empty result with zero timings; the inference stage is skipped — the
Bedrock model is not invoked — rather than continuing with empty text. -/
theorem process_document_textract_error_aborts (env : Env) (prompt e : String)
    (h : env.textract = Except.error e) :
    process_document env prompt =
      ({ extracted_text := "", analysis_result := "",
         textract_time := 0, bedrock_time := 0 },
       { textractCalls := 1, bedrockCalls := 0,
         errors := ["Error processing document: " ++ e] }) := by
  simp [process_document, h]

/-- Witness for the amended C2 at a concrete failing environment. -/
theorem process_document_textract_error_aborts_witness :
    process_document ⟨Except.error "boom", Except.error "unused", 3, 4⟩ "prompt" =
      ({ extracted_text := "", analysis_result := "",
         textract_time := 0, bedrock_time := 0 },
       { textractCalls := 1, bedrockCalls := 0,
         errors := ["Error processing document: boom"] }) :=
  process_document_textract_error_aborts _ "prompt" "boom" rfl

/-- C5: for every PDF input whose page count exceeds one, the multi-page
error is shown and the selection is cleared, and no network call is made:
zero S3 uploads, zero Textract calls, zero Bedrock calls, whatever the
button state and the rest of the environment. -/
theorem multipage_pdf_rejected_no_calls (m : MainEnv) (f : UploadedFile)
    (n : Nat) (prompt : String)
    (hf : m.uploadedFile = some f) (ht : f.fileType = "application/pdf")
    (hp : m.pdfOpen = PdfOpen.pages n) (hn : 1 < n) :
    (previewSelection m.uploadedFile m.pdfOpen).1 = none ∧
    (runMain m prompt).s3UploadCalls = 0 ∧
    (runMain m prompt).textractCalls = 0 ∧
    (runMain m prompt).bedrockCalls = 0 ∧
    multiPageError ∈ (runMain m prompt).errors := by
  have hsel : previewSelection m.uploadedFile m.pdfOpen = (none, [multiPageError]) := by
    simp [previewSelection, hf, ht, hp, hn]
  cases hb : m.buttonPressed <;> simp [runMain, hsel, hb]

/-- Witness for C5: a three-page PDF with the button pressed makes no
network call. -/
theorem multipage_pdf_rejected_no_calls_witness :
    (previewSelection (some ⟨"notes.pdf", "application/pdf"⟩)
        (PdfOpen.pages 3)).1 = none ∧
    (runMain ⟨some ⟨"notes.pdf", "application/pdf"⟩, PdfOpen.pages 3, true,
        Except.ok (), ⟨Except.ok [], Except.ok ⟨none⟩, 0, 0⟩,
        ⟨2025, 10, 12, 9, 30, 0⟩⟩ "prompt").s3UploadCalls = 0 ∧
    (runMain ⟨some ⟨"notes.pdf", "application/pdf"⟩, PdfOpen.pages 3, true,
        Except.ok (), ⟨Except.ok [], Except.ok ⟨none⟩, 0, 0⟩,
        ⟨2025, 10, 12, 9, 30, 0⟩⟩ "prompt").textractCalls = 0 ∧
    (runMain ⟨some ⟨"notes.pdf", "application/pdf"⟩, PdfOpen.pages 3, true,
        Except.ok (), ⟨Except.ok [], Except.ok ⟨none⟩, 0, 0⟩,
        ⟨2025, 10, 12, 9, 30, 0⟩⟩ "prompt").bedrockCalls = 0 ∧
    multiPageError ∈ (runMain ⟨some ⟨"notes.pdf", "application/pdf"⟩,
        PdfOpen.pages 3, true, Except.ok (),
        ⟨Except.ok [], Except.ok ⟨none⟩, 0, 0⟩,
        ⟨2025, 10, 12, 9, 30, 0⟩⟩ "prompt").errors :=
  multipage_pdf_rejected_no_calls
    ⟨some ⟨"notes.pdf", "application/pdf"⟩, PdfOpen.pages 3, true,
      Except.ok (), ⟨Except.ok [], Except.ok ⟨none⟩, 0, 0⟩,
      ⟨2025, 10, 12, 9, 30, 0⟩⟩
    ⟨"notes.pdf", "application/pdf"⟩ 3 "prompt" rfl rfl rfl (by decide)

/-- C6: for every run in which the S3 upload fails, the upload call is
made exactly once, its error and the `"Failed to upload file"` message
are shown, and the pipeline halts before extraction: zero Textract calls
and zero Bedrock calls. -/
theorem upload_failure_halts_pipeline (m : MainEnv) (f : UploadedFile)
    (e prompt : String)
    (hsel : (previewSelection m.uploadedFile m.pdfOpen).1 = some f)
    (hb : m.buttonPressed = true)
    (hu : m.upload = Except.error e) :
    (runMain m prompt).s3UploadCalls = 1 ∧
    (runMain m prompt).textractCalls = 0 ∧
    (runMain m prompt).bedrockCalls = 0 ∧
    ("Error uploading to S3: " ++ e) ∈ (runMain m prompt).errors ∧
    "Failed to upload file" ∈ (runMain m prompt).errors ∧
    (runMain m prompt).result = none := by
  simp [runMain, hsel, hb, hu, upload_to_s3]

/-- Witness for C6: a selected JPEG whose upload fails leads to one upload
call and no extraction or inference call. -/
theorem upload_failure_halts_pipeline_witness :
    (runMain ⟨some ⟨"scan.jpg", "image/jpeg"⟩, PdfOpen.pages 1, true,
        Except.error "AccessDenied", ⟨Except.ok [], Except.ok ⟨none⟩, 0, 0⟩,
        ⟨2025, 10, 12, 9, 30, 0⟩⟩ "prompt").s3UploadCalls = 1 ∧
    (runMain ⟨some ⟨"scan.jpg", "image/jpeg"⟩, PdfOpen.pages 1, true,
        Except.error "AccessDenied", ⟨Except.ok [], Except.ok ⟨none⟩, 0, 0⟩,
        ⟨2025, 10, 12, 9, 30, 0⟩⟩ "prompt").textractCalls = 0 ∧
    (runMain ⟨some ⟨"scan.jpg", "image/jpeg"⟩, PdfOpen.pages 1, true,
        Except.error "AccessDenied", ⟨Except.ok [], Except.ok ⟨none⟩, 0, 0⟩,
        ⟨2025, 10, 12, 9, 30, 0⟩⟩ "prompt").bedrockCalls = 0 ∧
    ("Error uploading to S3: " ++ "AccessDenied") ∈
      (runMain ⟨some ⟨"scan.jpg", "image/jpeg"⟩, PdfOpen.pages 1, true,
        Except.error "AccessDenied", ⟨Except.ok [], Except.ok ⟨none⟩, 0, 0⟩,
        ⟨2025, 10, 12, 9, 30, 0⟩⟩ "prompt").errors ∧
    "Failed to upload file" ∈
      (runMain ⟨some ⟨"scan.jpg", "image/jpeg"⟩, PdfOpen.pages 1, true,
        Except.error "AccessDenied", ⟨Except.ok [], Except.ok ⟨none⟩, 0, 0⟩,
        ⟨2025, 10, 12, 9, 30, 0⟩⟩ "prompt").errors ∧
    (runMain ⟨some ⟨"scan.jpg", "image/jpeg"⟩, PdfOpen.pages 1, true,
        Except.error "AccessDenied", ⟨Except.ok [], Except.ok ⟨none⟩, 0, 0⟩,
        ⟨2025, 10, 12, 9, 30, 0⟩⟩ "prompt").result = none :=
  upload_failure_halts_pipeline _ ⟨"scan.jpg", "image/jpeg"⟩ "AccessDenied"
    "prompt" rfl rfl rfl

/-- C10: for every PDF input on which the page-count validation block
itself raises (an unparsable or corrupt PDF), the error is reported and
the selection is cleared, so no S3, Textract, or Bedrock call occurs. -/
theorem pdf_exception_clears_selection (m : MainEnv) (f : UploadedFile)
    (e prompt : String)
    (hf : m.uploadedFile = some f) (ht : f.fileType = "application/pdf")
    (hp : m.pdfOpen = PdfOpen.err e) :
    (previewSelection m.uploadedFile m.pdfOpen).1 = none ∧
    (runMain m prompt).s3UploadCalls = 0 ∧
    (runMain m prompt).textractCalls = 0 ∧
    (runMain m prompt).bedrockCalls = 0 ∧
    ("Error processing PDF: " ++ e) ∈ (runMain m prompt).errors := by
  have hsel : previewSelection m.uploadedFile m.pdfOpen =
      (none, ["Error processing PDF: " ++ e]) := by
    simp [previewSelection, hf, ht, hp]
  cases hb : m.buttonPressed <;> simp [runMain, hsel, hb]

/-- Witness for C10: a corrupt PDF whose open raises clears the selection
and makes no network call even with the button pressed. -/
theorem pdf_exception_clears_selection_witness :
    (previewSelection (some ⟨"broken.pdf", "application/pdf"⟩)
        (PdfOpen.err "EOF marker not found")).1 = none ∧
    (runMain ⟨some ⟨"broken.pdf", "application/pdf"⟩,
        PdfOpen.err "EOF marker not found", true, Except.ok (),
        ⟨Except.ok [], Except.ok ⟨none⟩, 0, 0⟩,
        ⟨2025, 10, 12, 9, 30, 0⟩⟩ "prompt").s3UploadCalls = 0 ∧
    (runMain ⟨some ⟨"broken.pdf", "application/pdf"⟩,
        PdfOpen.err "EOF marker not found", true, Except.ok (),
        ⟨Except.ok [], Except.ok ⟨none⟩, 0, 0⟩,
        ⟨2025, 10, 12, 9, 30, 0⟩⟩ "prompt").textractCalls = 0 ∧
    (runMain ⟨some ⟨"broken.pdf", "application/pdf"⟩,
        PdfOpen.err "EOF marker not found", true, Except.ok (),
        ⟨Except.ok [], Except.ok ⟨none⟩, 0, 0⟩,
        ⟨2025, 10, 12, 9, 30, 0⟩⟩ "prompt").bedrockCalls = 0 ∧
    ("Error processing PDF: " ++ "EOF marker not found") ∈
      (runMain ⟨some ⟨"broken.pdf", "application/pdf"⟩,
        PdfOpen.err "EOF marker not found", true, Except.ok (),
        ⟨Except.ok [], Except.ok ⟨none⟩, 0, 0⟩,
        ⟨2025, 10, 12, 9, 30, 0⟩⟩ "prompt").errors :=
  pdf_exception_clears_selection
    ⟨some ⟨"broken.pdf", "application/pdf"⟩, PdfOpen.err "EOF marker not found",
      true, Except.ok (), ⟨Except.ok [], Except.ok ⟨none⟩, 0, 0⟩,
      ⟨2025, 10, 12, 9, 30, 0⟩⟩
    ⟨"broken.pdf", "application/pdf"⟩ "EOF marker not found" "prompt" rfl rfl rfl

end DocInsights
